import Mathlib

/-!
Verification of `rocket_read_db_pools` (src/lib.rs): a dual-pool wrapper
`ReadPool<P>` around an underlying `rocket_db_pools::Pool`, with request guards
`ReadConnection<D>` and `RwConnection<D>`.

The configuration layer is figment. Its operations used by `ReadPool::init`
(`Figment::contains`, `Figment::focus`, `Figment::join`, `Serialized::default`)
are embedded below over a tree of dictionaries: `focus key` re-roots the figment
at the sub-dictionary found at the dotted `key` path (the resulting figment
contains only that sub-dictionary, as figment documents), `join` coalesces new
provider data at the lowest priority (existing values win; dictionaries merge
recursively), and `Serialized::default key v` provides `v` nested under the
dotted `key` path. Asynchrony is irrelevant to the routing logic (each `await`
is a sequential call), so `async` methods are embedded as plain functions;
fallible calls return `Except`; the unit-returning, infallible `close` of the
underlying pool is embedded by the trace of pools on which `close` is invoked,
in invocation order.
-/

set_option autoImplicit false

namespace RocketReadDbPools

mutual

/-- A figment configuration value: integer, string, or nested dictionary. -/
inductive FigVal : Type where
  | num (n : Int) : FigVal
  | str (s : String) : FigVal
  | dict (d : FigDict) : FigVal

/-- A figment dictionary: an association list of keys to values (figment's
`Dict`, which has unique keys; insertion order is irrelevant to lookup). -/
inductive FigDict : Type where
  | nil : FigDict
  | cons (key : String) (val : FigVal) (rest : FigDict) : FigDict

end

/-- Lookup of a key in a dictionary. -/
def FigDict.find : FigDict → String → Option FigVal
  | .nil, _ => none
  | .cons k v rest, key => if k = key then some v else FigDict.find rest key

/-- The keys of a dictionary. -/
def FigDict.keys : FigDict → List String
  | .nil => []
  | .cons k _ rest => k :: FigDict.keys rest

/-- The entries of a dictionary whose key is not in the given list. -/
def FigDict.dropKeys : FigDict → List String → FigDict
  | .nil, _ => .nil
  | .cons k v rest, ks =>
      if ks.contains k then FigDict.dropKeys rest ks
      else .cons k v (FigDict.dropKeys rest ks)

/-- Concatenation of two dictionaries. -/
def FigDict.append : FigDict → FigDict → FigDict
  | .nil, d => d
  | .cons k v rest, d => .cons k v (FigDict.append rest d)

mutual

/-- figment coalescing with `Order::Join`: the existing (first) value wins on
conflicts, and two dictionaries are merged recursively. -/
def joinVal : FigVal → FigVal → FigVal
  | .dict d1, .dict d2 =>
      .dict (FigDict.append (joinDictAux d1 d2) (FigDict.dropKeys d2 (FigDict.keys d1)))
  | v, _ => v

/-- Entries of `d1`, each joined with the entry of the same key in `d2` when one
exists; the recursion that underlies dictionary join. -/
def joinDictAux : FigDict → FigDict → FigDict
  | .nil, _ => .nil
  | .cons k v rest, d2 =>
      match FigDict.find d2 k with
      | some v2 => .cons k (joinVal v v2) (joinDictAux rest d2)
      | none => .cons k v (joinDictAux rest d2)

end

/-- Join of two dictionaries: entries of `d1` (recursively joined where `d2` has
the same key) followed by the entries of `d2` whose keys `d1` lacks. -/
def joinDict (d1 d2 : FigDict) : FigDict :=
  FigDict.append (joinDictAux d1 d2) (FigDict.dropKeys d2 (FigDict.keys d1))

/-- Descent along a key path in a value tree. -/
def FigVal.findPath : FigVal → List String → Option FigVal
  | v, [] => some v
  | .dict d, k :: ks =>
      match FigDict.find d k with
      | some v => FigVal.findPath v ks
      | none => none
  | _, _ :: _ => none

/-- Splitting of an accumulated dotted key into its segments. -/
def splitDotsAux : List Char → List Char → List String
  | [], acc => [String.mk acc.reverse]
  | c :: rest, acc =>
      if c = '.' then String.mk acc.reverse :: splitDotsAux rest []
      else splitDotsAux rest (c :: acc)

/-- A dotted figment key split into its segments. -/
def splitDots (s : String) : List String :=
  splitDotsAux s.data []

/-- A figment, holding its (already coalesced) dictionary of configuration
data, as handed to `Pool::init`. -/
structure Figment : Type where
  data : FigDict

/-- `Figment::contains(key)`: whether a value exists at the dotted key path. -/
def Figment.contains (f : Figment) (key : String) : Bool :=
  (FigVal.findPath (FigVal.dict f.data) (splitDots key)).isSome

/-- `Figment::focus(key)`: a figment containing only the sub-dictionary at the
dotted key path (an empty figment when there is none). -/
def Figment.focus (f : Figment) (key : String) : Figment :=
  match FigVal.findPath (FigVal.dict f.data) (splitDots key) with
  | some (FigVal.dict d) => ⟨d⟩
  | _ => ⟨FigDict.nil⟩

/-- `value` nested under the segments of a key path. -/
def nestPath : List String → FigVal → FigDict
  | [], _ => FigDict.nil
  | [k], v => FigDict.cons k v FigDict.nil
  | k :: k2 :: ks, v => FigDict.cons k (FigVal.dict (nestPath (k2 :: ks) v)) FigDict.nil

namespace Serialized

/-- `Serialized::default(key, value)`: a provider emitting `value` nested at the
dotted `key` path. Only integer values occur in this crate. -/
def dfault (key : String) (value : Int) : FigDict :=
  nestPath (splitDots key) (FigVal.num value)

end Serialized

/-- `Figment::join(provider)`: the provider's data is added at the lowest
priority — existing values win, dictionaries merge recursively. -/
def Figment.join (f : Figment) (provider : FigDict) : Figment :=
  ⟨joinDict f.data provider⟩

/-- The capability interface of the underlying `rocket_db_pools::Pool` `P`
(only what `ReadPool` calls): fallible construction from a figment and fallible
connection acquisition. `close` returns neither value nor error in Rust; its
effect is recorded by `ReadPool.close` as the trace of pools closed. -/
structure PoolImpl (P Conn Err : Type) : Type where
  init : Figment → Except Err P
  get : P → Except Err Conn

/-- `ReadPool<P>`: the mandatory main pool and the optional read-replica pool. -/
structure ReadPool (P : Type) : Type where
  main : P
  read : Option P

variable {P Conn Err : Type}

/-- The local `read_config` built inside `ReadPool::init`:
`figment.focus("read").join(Serialized::default("read.connect_timeout", 5))`. -/
def ReadPool.read_config (figment : Figment) : Figment :=
  (figment.focus "read").join (Serialized.dfault "read.connect_timeout" 5)

/-- `<ReadPool<P> as Pool>::init`: build the main pool from the given figment;
if the figment contains a "read" section, also build the replica pool from
`read_config`; either failure aborts the whole construction. -/
def ReadPool.init (impl : PoolImpl P Conn Err) (figment : Figment) :
    Except Err (ReadPool P) := do
  let main_pool ← impl.init figment
  if figment.contains "read" then
    let read_pool ← impl.init (ReadPool.read_config figment)
    pure ⟨main_pool, some read_pool⟩
  else
    pure ⟨main_pool, none⟩

/-- `<ReadPool<P> as Pool>::get`: always acquire from the main pool. -/
def ReadPool.get (impl : PoolImpl P Conn Err) (rp : ReadPool P) : Except Err Conn :=
  impl.get rp.main

/-- The pool consulted by `get_read`: `self.read.as_ref().unwrap_or(&self.main)`. -/
def ReadPool.readTarget (rp : ReadPool P) : P :=
  rp.read.getD rp.main

/-- `<ReadPool<P> as PoolRead>::get_read`: acquire from the read pool if given,
else from the main pool. -/
def ReadPool.get_read (impl : PoolImpl P Conn Err) (rp : ReadPool P) : Except Err Conn :=
  impl.get (ReadPool.readTarget rp)

/-- `<ReadPool<P> as Pool>::close`: close the main pool, then the read pool if
present — embedded as the ordered trace of pools on which `close` is invoked.
The operation returns no error in Rust and never skips the second close. -/
def ReadPool.close (rp : ReadPool P) : List P :=
  rp.main :: (match rp.read with
    | some read => [read]
    | none => [])

/-- The two HTTP statuses the request guards produce. -/
inductive Status : Type where
  | internalServerError : Status
  | serviceUnavailable : Status
deriving DecidableEq

/-- A rocket request-guard `Outcome` (the `Forward` variant is never produced by
this crate and is omitted). -/
inductive Outcome (S : Type) (E : Type) : Type where
  | success (val : S) : Outcome S E
  | error (err : Status × E) : Outcome S E

/-- `ReadConnection<D>`: a request guard owning one acquired connection. -/
structure ReadConnection (Conn : Type) : Type where
  conn : Conn

/-- `ReadConnection::into_inner`. -/
def ReadConnection.into_inner (c : ReadConnection Conn) : Conn :=
  c.conn

/-- `Deref for ReadConnection` (and the target of `DerefMut`): the owned
connection. -/
def ReadConnection.deref (c : ReadConnection Conn) : Conn :=
  c.conn

/-- `FromRequest for ReadConnection`: `fetched` is the result of
`D::fetch(req.rocket())`, `none` when no pool is registered under `D`. -/
def ReadConnection.from_request (impl : PoolImpl P Conn Err)
    (fetched : Option (ReadPool P)) : Outcome (ReadConnection Conn) (Option Err) :=
  match fetched with
  | some db =>
      match ReadPool.get_read impl db with
      | Except.ok conn => Outcome.success ⟨conn⟩
      | Except.error e => Outcome.error (Status.serviceUnavailable, some e)
  | none => Outcome.error (Status.internalServerError, none)

/-- `Sentinel for ReadConnection`: abort iff `D::fetch` finds no pool. -/
def ReadConnection.abort (fetched : Option (ReadPool P)) : Bool :=
  fetched.isNone

/-- `RwConnection<D>`: a request guard containing a `ReadConnection` whose
connection was acquired from the main pool. -/
structure RwConnection (Conn : Type) : Type where
  rc : ReadConnection Conn

/-- `RwConnection::into_inner`: the innermost connection (`self.0.0`). -/
def RwConnection.into_inner (c : RwConnection Conn) : Conn :=
  c.rc.conn

/-- `RwConnection::into_read_connection`: the consuming downgrade (`self.0`). -/
def RwConnection.into_read_connection (c : RwConnection Conn) : ReadConnection Conn :=
  c.rc

/-- `RwConnection::as_read_connection` (and the target of
`as_read_connection_mut`): the contained `ReadConnection`. -/
def RwConnection.as_read_connection (c : RwConnection Conn) : ReadConnection Conn :=
  c.rc

/-- `Deref for RwConnection` (and the target of `DerefMut`): the innermost
connection (`self.0.0`). -/
def RwConnection.deref (c : RwConnection Conn) : Conn :=
  c.rc.conn

/-- `FromRequest for RwConnection`: same lookup and classification as
`ReadConnection`, but acquiring through `get` (the main pool). -/
def RwConnection.from_request (impl : PoolImpl P Conn Err)
    (fetched : Option (ReadPool P)) : Outcome (RwConnection Conn) (Option Err) :=
  match fetched with
  | some db =>
      match ReadPool.get impl db with
      | Except.ok conn => Outcome.success ⟨⟨conn⟩⟩
      | Except.error e => Outcome.error (Status.serviceUnavailable, some e)
  | none => Outcome.error (Status.internalServerError, none)

/-- `Sentinel for RwConnection`: abort iff `D::fetch` finds no pool. -/
def RwConnection.abort (fetched : Option (ReadPool P)) : Bool :=
  fetched.isNone

/-! Concrete instantiations used to evaluate the embedding on closed inputs. -/

/-- A base configuration with no "read" section: `{url = "db1"}`. -/
def figMainOnly : Figment :=
  ⟨FigDict.cons "url" (FigVal.str "db1") FigDict.nil⟩

/-- A configuration with a "read" section:
`{url = "db1", max_connections = 7, read = {url = "db2"}}`. -/
def figWithRead : Figment :=
  ⟨FigDict.cons "url" (FigVal.str "db1")
    (FigDict.cons "max_connections" (FigVal.num 7)
      (FigDict.cons "read" (FigVal.dict (FigDict.cons "url" (FigVal.str "db2") FigDict.nil))
        FigDict.nil))⟩

/-- An underlying pool that records, as the pool value, the `url` entry of the
figment it was built from, and acquires a connection naming that pool. -/
def urlImpl : PoolImpl (Option FigVal) (Option FigVal) String :=
  ⟨fun f => Except.ok (FigDict.find f.data "url"), fun p => Except.ok p⟩

/-- An underlying pool whose construction always fails. -/
def failInitImpl : PoolImpl Nat Nat String :=
  ⟨fun _ => Except.error "main down", fun _ => Except.error "main down"⟩

/-- An underlying pool that fails to construct exactly when the figment's `url`
is "db2" (the replica url of `figWithRead`), and succeeds otherwise. -/
def failReadInitImpl : PoolImpl (Option FigVal) (Option FigVal) String :=
  ⟨fun f =>
      match FigDict.find f.data "url" with
      | some (FigVal.str "db2") => Except.error "replica down"
      | v => Except.ok v,
    fun p => Except.ok p⟩

/-- An underlying pool that constructs but whose acquisition always fails. -/
def failGetImpl : PoolImpl Nat Nat String :=
  ⟨fun _ => Except.ok 0, fun _ => Except.error "exhausted"⟩

/-! ### Shared inversion lemmas for `ReadPool.init` -/

/-- `ReadPool.init` written as an explicit `Except.bind` chain. -/
theorem init_cases (impl : PoolImpl P Conn Err) (figment : Figment) :
    ReadPool.init impl figment =
      Except.bind (impl.init figment) (fun main_pool =>
        if figment.contains "read" then
          Except.bind (impl.init (ReadPool.read_config figment)) (fun read_pool =>
            Except.ok ⟨main_pool, some read_pool⟩)
        else Except.ok ⟨main_pool, none⟩) := rfl

/-- Inversion of a successful `ReadPool.init`: the main pool was built from the
given figment, and the `read` field reflects the presence of the "read"
section, holding a pool built from `read_config` when present. -/
theorem init_ok_inv (impl : PoolImpl P Conn Err) (figment : Figment) (rp : ReadPool P)
    (hinit : ReadPool.init impl figment = Except.ok rp) :
    impl.init figment = Except.ok rp.main ∧
      ((figment.contains "read" = false ∧ rp.read = none) ∨
        (figment.contains "read" = true ∧
          ∃ r, rp.read = some r ∧
            impl.init (ReadPool.read_config figment) = Except.ok r)) := by
  rw [init_cases] at hinit
  cases him : impl.init figment with
  | error e => rw [him] at hinit; simp [Except.bind] at hinit
  | ok m =>
    rw [him] at hinit
    by_cases hc : figment.contains "read" = true
    · cases hr : impl.init (ReadPool.read_config figment) with
      | error e => rw [hr] at hinit; simp [hc, Except.bind] at hinit
      | ok r =>
        rw [hr] at hinit
        simp only [hc, if_true, Except.bind, Except.ok.injEq] at hinit
        subst hinit
        exact ⟨rfl, Or.inr ⟨hc, r, rfl, rfl⟩⟩
    · rw [Bool.not_eq_true] at hc
      simp only [hc, Bool.false_eq_true, if_false, Except.bind, Except.ok.injEq] at hinit
      subst hinit
      exact ⟨rfl, Or.inl ⟨hc, rfl⟩⟩

/-! ### Claims -/

/-- Claim C1: `get_read` acquires from the replica pool when `read` is `Some`
and from the main pool when `read` is `None`; errors of the underlying pool
propagate unchanged; and for a pool built from a configuration without a
"read" section, the read path and the write path consult the identical pool
instance (`readTarget rp = rp.main`). -/
theorem c1_read_routing_and_fallback (impl : PoolImpl P Conn Err)
    (figment : Figment) (rp : ReadPool P) :
    (∀ r, rp.read = some r → ReadPool.get_read impl rp = impl.get r) ∧
    (rp.read = none → ReadPool.get_read impl rp = impl.get rp.main) ∧
    (∀ e, impl.get (ReadPool.readTarget rp) = Except.error e →
        ReadPool.get_read impl rp = Except.error e) ∧
    (ReadPool.init impl figment = Except.ok rp → figment.contains "read" = false →
        rp.read = none ∧ ReadPool.readTarget rp = rp.main ∧
        ReadPool.get_read impl rp = ReadPool.get impl rp) := by
  refine ⟨?_, ?_, ?_, ?_⟩
  · intro r hr
    simp [ReadPool.get_read, ReadPool.readTarget, hr]
  · intro hr
    simp [ReadPool.get_read, ReadPool.readTarget, hr]
  · intro e he
    exact he
  · intro hinit hnr
    obtain ⟨-, h | h⟩ := init_ok_inv impl figment rp hinit
    · exact ⟨h.2, by simp [ReadPool.readTarget, h.2],
        by simp [ReadPool.get_read, ReadPool.readTarget, ReadPool.get, h.2]⟩
    · rw [h.1] at hnr
      exact absurd hnr (by decide)

/-- Witness for C1 at the configuration `{url = "db1"}` (no "read" section). -/
theorem c1_witness :
    ReadPool.get_read urlImpl ⟨some (FigVal.str "db1"), none⟩ =
      ReadPool.get urlImpl ⟨some (FigVal.str "db1"), none⟩ :=
  ((c1_read_routing_and_fallback urlImpl figMainOnly
      ⟨some (FigVal.str "db1"), none⟩).2.2.2 (by rfl) (by rfl)).2.2

/-- Claim C2 (refuted — code bug): for the configuration
`{url = "db1", max_connections = 7, read = {url = "db2"}}`, the effective
replica configuration `read_config` that `init` hands to the underlying
`P::init` (i) has no top-level `connect_timeout` — the intended default is
joined at the dotted key `read.connect_timeout` on a figment already focused
on "read", so it only produces a junk nested key — and (ii) contains no key of
the base section (`max_connections` is absent): no layering of "read" over the
base occurs. The replica pool is nevertheless built from exactly this
configuration. -/
theorem c2_read_config_misses_default_and_base :
    FigDict.find (ReadPool.read_config figWithRead).data "connect_timeout" = none ∧
    FigDict.find (ReadPool.read_config figWithRead).data "max_connections" = none ∧
    FigDict.find (ReadPool.read_config figWithRead).data "url" = some (FigVal.str "db2") ∧
    FigVal.findPath (FigVal.dict (ReadPool.read_config figWithRead).data)
      ["read", "connect_timeout"] = some (FigVal.num 5) ∧
    ReadPool.init urlImpl figWithRead =
      Except.ok ⟨some (FigVal.str "db1"), some (some (FigVal.str "db2"))⟩ :=
  ⟨rfl, rfl, rfl, rfl, rfl⟩

/-- Claim C3: `init` fails with the propagated error — producing no
`ReadPool` — when the main pool fails to construct, and likewise when a "read"
section is present and the replica pool fails to construct. -/
theorem c3_init_fails_atomically (impl : PoolImpl P Conn Err) (figment : Figment) :
    (∀ e, impl.init figment = Except.error e →
        ReadPool.init impl figment = Except.error e) ∧
    (∀ m e, impl.init figment = Except.ok m →
        figment.contains "read" = true →
        impl.init (ReadPool.read_config figment) = Except.error e →
        ReadPool.init impl figment = Except.error e) := by
  constructor
  · intro e he
    rw [init_cases, he]
    rfl
  · intro m e hm hc he
    rw [init_cases, hm]
    simp [hc, he, Except.bind]

/-- Witness for C3: a main pool that fails to construct, and a replica url
("db2") that fails to construct under a main that succeeds. -/
theorem c3_witness :
    ReadPool.init failInitImpl figMainOnly = Except.error "main down" ∧
      ReadPool.init failReadInitImpl figWithRead = Except.error "replica down" :=
  ⟨(c3_init_fails_atomically failInitImpl figMainOnly).1 "main down" rfl,
   (c3_init_fails_atomically failReadInitImpl figWithRead).2
      (some (FigVal.str "db1")) "replica down" rfl rfl rfl⟩

/-- Claim C4: for both request guards, an unregistered pool yields
`InternalServerError` with no error detail; a registered pool whose acquisition
fails yields `ServiceUnavailable` carrying exactly the underlying error (hence
never `InternalServerError`); a successful acquisition yields a guard wrapping
the acquired connection. -/
theorem c4_error_classification (impl : PoolImpl P Conn Err)
    (fetched : Option (ReadPool P)) :
    (fetched = none →
        ReadConnection.from_request impl fetched =
            Outcome.error (Status.internalServerError, none) ∧
          RwConnection.from_request impl fetched =
            Outcome.error (Status.internalServerError, none)) ∧
    (∀ db e, fetched = some db → ReadPool.get_read impl db = Except.error e →
        ReadConnection.from_request impl fetched =
          Outcome.error (Status.serviceUnavailable, some e)) ∧
    (∀ db e, fetched = some db → ReadPool.get impl db = Except.error e →
        RwConnection.from_request impl fetched =
          Outcome.error (Status.serviceUnavailable, some e)) ∧
    (∀ db c, fetched = some db → ReadPool.get_read impl db = Except.ok c →
        ReadConnection.from_request impl fetched = Outcome.success ⟨c⟩) ∧
    (∀ db c, fetched = some db → ReadPool.get impl db = Except.ok c →
        RwConnection.from_request impl fetched = Outcome.success ⟨⟨c⟩⟩) := by
  refine ⟨?_, ?_, ?_, ?_, ?_⟩
  · intro h; subst h
    exact ⟨rfl, rfl⟩
  · intro db e h hg; subst h
    simp [ReadConnection.from_request, hg]
  · intro db e h hg; subst h
    simp [RwConnection.from_request, hg]
  · intro db c h hg; subst h
    simp [ReadConnection.from_request, hg]
  · intro db c h hg; subst h
    simp [RwConnection.from_request, hg]

/-- Witness for C4: a registered pool with failing acquisition yields
`ServiceUnavailable` with the error, and an unregistered pool yields
`InternalServerError` with `none`. -/
theorem c4_witness :
    ReadConnection.from_request failGetImpl (some ⟨0, none⟩) =
        Outcome.error (Status.serviceUnavailable, some "exhausted") ∧
      RwConnection.from_request failGetImpl (none : Option (ReadPool Nat)) =
        Outcome.error (Status.internalServerError, none) :=
  ⟨(c4_error_classification failGetImpl (some ⟨0, none⟩)).2.1 ⟨0, none⟩ "exhausted" rfl rfl,
   ((c4_error_classification failGetImpl none).1 rfl).2⟩

/-- Claim C5: `get` always acquires from the main pool (no fallback, no load
distribution); for a pool built from a configuration with a "read" section,
`get` draws from main and `get_read` from the replica, and a failure of either
underlying pool propagates from its own path only — no cross-pool fallback. -/
theorem c5_write_always_main (impl : PoolImpl P Conn Err) (figment : Figment)
    (rp : ReadPool P) :
    ReadPool.get impl rp = impl.get rp.main ∧
      (ReadPool.init impl figment = Except.ok rp → figment.contains "read" = true →
        ∃ r, rp.read = some r ∧
          ReadPool.get_read impl rp = impl.get r ∧
          ReadPool.get impl rp = impl.get rp.main ∧
          (∀ e, impl.get r = Except.error e →
            ReadPool.get_read impl rp = Except.error e) ∧
          (∀ e, impl.get rp.main = Except.error e →
            ReadPool.get impl rp = Except.error e)) := by
  refine ⟨rfl, ?_⟩
  intro hinit hc
  obtain ⟨-, h | h⟩ := init_ok_inv impl figment rp hinit
  · rw [h.1] at hc
    exact absurd hc (by decide)
  · obtain ⟨-, r, hr, -⟩ := h
    refine ⟨r, hr, ?_, rfl, ?_, ?_⟩
    · simp [ReadPool.get_read, ReadPool.readTarget, hr]
    · intro e he
      simpa [ReadPool.get_read, ReadPool.readTarget, hr] using he
    · intro e he
      exact he

/-- Witness for C5 at the configuration
`{url = "db1", max_connections = 7, read = {url = "db2"}}`. -/
theorem c5_witness :
    ReadPool.get_read urlImpl ⟨some (FigVal.str "db1"), some (some (FigVal.str "db2"))⟩ =
        urlImpl.get (some (FigVal.str "db2")) ∧
      ReadPool.get urlImpl ⟨some (FigVal.str "db1"), some (some (FigVal.str "db2"))⟩ =
        urlImpl.get (some (FigVal.str "db1")) := by
  obtain ⟨r, hr, h1, h2, -, -⟩ :=
    (c5_write_always_main urlImpl figWithRead
      ⟨some (FigVal.str "db1"), some (some (FigVal.str "db2"))⟩).2 (by rfl) (by rfl)
  obtain rfl : (some (FigVal.str "db2") : Option FigVal) = r := Option.some.inj hr
  exact ⟨h1, h2⟩

/-- Claim C6: the consuming downgrade `into_read_connection` is exactly the
contained `ReadConnection`, owning the same connection — the connection
observed before and after the downgrade is identical, with no new
acquisition. -/
theorem c6_downgrade_preserves_identity (h : RwConnection Conn) :
    RwConnection.into_read_connection h = h.rc ∧
      (RwConnection.into_read_connection h).into_inner = RwConnection.into_inner h ∧
      (RwConnection.into_read_connection h).deref = RwConnection.deref h :=
  ⟨rfl, rfl, rfl⟩

/-- Claim C7: `close` closes the main pool unconditionally and the replica
pool exactly when configured, attempting both in order without
short-circuiting; the trace type has no error channel, matching the
infallible Rust signature. -/
theorem c7_close_closes_both (rp : ReadPool P) :
    rp.main ∈ ReadPool.close rp ∧
      (∀ r, rp.read = some r → ReadPool.close rp = [rp.main, r]) ∧
      (rp.read = none → ReadPool.close rp = [rp.main]) ∧
      ReadPool.close rp = rp.main :: rp.read.toList := by
  refine ⟨?_, ?_, ?_, ?_⟩
  · simp [ReadPool.close]
  · intro r hr
    simp [ReadPool.close, hr]
  · intro hr
    simp [ReadPool.close, hr]
  · cases hr : rp.read <;> simp [ReadPool.close, hr]

/-- Witness for C7: a pool with a replica closes both, a pool without closes
only main. -/
theorem c7_witness :
    ReadPool.close (⟨0, some 1⟩ : ReadPool Nat) = [0, 1] ∧
      ReadPool.close (⟨2, none⟩ : ReadPool Nat) = [2] :=
  ⟨(c7_close_closes_both ⟨0, some 1⟩).2.1 1 rfl,
   (c7_close_closes_both ⟨2, none⟩).2.2.1 rfl⟩

/-- Claim C8: for a successfully constructed `ReadPool`, the main pool was
successfully initialized from the figment before the value exists, and `read`
is `Some` exactly when the configuration contained a "read" section. The
remaining part of the claim — that no operation changes the presence of
`read` — holds structurally: `get`, `get_read` and `close` take the pool by
shared reference (`&self`) and are embedded as pure functions that return no
modified pool, so the `read` field of a constructed value can never change. -/
theorem c8_construction_invariants (impl : PoolImpl P Conn Err) (figment : Figment)
    (rp : ReadPool P) (hinit : ReadPool.init impl figment = Except.ok rp) :
    impl.init figment = Except.ok rp.main ∧
      rp.read.isSome = figment.contains "read" := by
  obtain ⟨hm, h | h⟩ := init_ok_inv impl figment rp hinit
  · exact ⟨hm, by simp [h.1, h.2]⟩
  · obtain ⟨hc, r, hr, -⟩ := h
    exact ⟨hm, by simp [hc, hr]⟩

/-- Witness for C8 at the configuration with a "read" section. -/
theorem c8_witness :
    urlImpl.init figWithRead = Except.ok (some (FigVal.str "db1")) ∧
      (some (some (FigVal.str "db2")) : Option (Option FigVal)).isSome =
        figWithRead.contains "read" :=
  c8_construction_invariants urlImpl figWithRead
    ⟨some (FigVal.str "db1"), some (some (FigVal.str "db2"))⟩ (by rfl)

/-- Claim C9: for both guard types the pre-dispatch sentinel aborts exactly
when no pool is registered under the key; it takes no pool implementation at
all, so it cannot depend on whether acquisition would succeed. -/
theorem c9_sentinel_reports_registration (fetched : Option (ReadPool P)) :
    (ReadConnection.abort fetched = true ↔ fetched = none) ∧
      (RwConnection.abort fetched = true ↔ fetched = none) ∧
      ReadConnection.abort fetched = RwConnection.abort fetched := by
  refine ⟨?_, ?_, rfl⟩ <;>
    simp [ReadConnection.abort, RwConnection.abort, Option.isNone_iff_eq_none]

/-- Claim C10: every accessor of a `RwConnection` — `into_inner`, the
downgrade followed by `into_inner`, the `Deref`/`DerefMut` proxy, and
`as_read_connection` under each of its accessors — reaches the one contained
connection; none acquires or substitutes a different one. -/
theorem c10_accessor_coherence (h : RwConnection Conn) :
    RwConnection.into_inner h = h.rc.conn ∧
      (RwConnection.into_read_connection h).into_inner = RwConnection.into_inner h ∧
      RwConnection.deref h = RwConnection.into_inner h ∧
      (RwConnection.as_read_connection h).deref = RwConnection.into_inner h ∧
      (RwConnection.as_read_connection h).into_inner = RwConnection.into_inner h ∧
      (RwConnection.as_read_connection h).conn = RwConnection.into_inner h :=
  ⟨rfl, rfl, rfl, rfl, rfl, rfl⟩

end RocketReadDbPools
